import Mathlib

/-!
Verification of the MakersOfSweden/makeradmin front-end resource-model layer.

The repository's `src/` holds `admin/src/Models/Quiz.ts` (a concrete resource
type extending the generic `Base` model class) and a bundle containing the
`TemplateForm` React component (a subscriber of a model).  The generic `Base`
class itself (attributes/original bookkeeping, `set`, `save`, `revert`,
`canSave`, `subscribe`) is not in `src/`, so it is modelled here from the
specification; `Quiz` and `TemplateForm` are embedded from their sources.
-/

/-- Attribute values occurring in the model schemas: strings or `null`
(the `Quiz` schema uses defaults `""` and `null`). -/
inductive Value where
  | str : String → Value
  | vnull : Value
deriving DecidableEq, Repr

/-- Association-list lookup over attribute maps. -/
def lookupV : List (String × Value) → String → Option Value
  | [], _ => none
  | p :: t, k => if p.1 = k then some p.2 else lookupV t k

/-- Modelled from the spec: the state of a Resource Model (`Base`), which is
missing from `src/`.  Spec §3: `schema` maps attribute names to default
values, `id` is `null`/absent for a not-yet-created record, `attributes` is
the working state and `original` the last-loaded/saved snapshot.  Spec §4.1
additionally contemplates per-type required-field constraints
("if any declared"), kept here as the list `required`. -/
structure Model where
  schema : List (String × Value)
  id : Option Nat
  attributes : List (String × Value)
  original : List (String × Value)
  required : List String
deriving DecidableEq, Repr

/-- Modelled from the spec: construction of an empty (new) record; spec §3
lifecycle "constructed empty (new record)".  `attributes` and `original`
start at the schema defaults and `id` is unset. -/
def newModel (schema : List (String × Value)) (required : List String) : Model :=
  { schema := schema, id := none, attributes := schema, original := schema,
    required := required }

/-- Modelled from the spec: hydration of `attributes` from a fetched
representation — every schema key is present, taking the fetched value when
the representation has it and the default otherwise (spec §3 invariant:
exactly the schema keys). -/
def hydrate (schema : List (String × Value)) (data : List (String × Value)) :
    List (String × Value) :=
  schema.map (fun kd => (kd.1, (lookupV data kd.1).getD kd.2))

/-- Modelled from the spec: a model hydrated from a fetched representation of
an existing record (spec §3 lifecycle "hydrated from a fetched
representation"). -/
def loadModel (schema : List (String × Value)) (required : List String)
    (i : Nat) (data : List (String × Value)) : Model :=
  { schema := schema, id := some i, attributes := hydrate schema data,
    original := hydrate schema data, required := required }

/-- Modelled from the spec: `set(attributeName, value)` is "constrained to
keys present in `schema`; updates `attributes[attributeName]`" (spec §4.2);
a name outside the schema leaves the model unchanged. -/
def setAttr (m : Model) (k : String) (v : Value) : Model :=
  if (m.schema.map Prod.fst).contains k then
    { m with attributes :=
        m.attributes.map (fun kv => if kv.1 = k then (kv.1, v) else kv) }
  else m

/-- Modelled from the spec: a record is "new" iff `id` is unset (spec §3). -/
def isNew (m : Model) : Bool := m.id.isNone

/-- Modelled from the spec: a record is "dirty" iff any attribute differs
from `original` (spec §3); since `attributes` and `original` range over the
same keys this is inequality of the two maps. -/
def isDirty (m : Model) : Bool := decide (m.attributes ≠ m.original)

/-- Modelled from the spec: the required-field constraints are satisfied when
every declared required attribute currently holds a non-empty string. -/
def constraintsOk (m : Model) : Bool :=
  m.required.all (fun k =>
    match lookupV m.attributes k with
    | some (Value.str s) => s ≠ ""
    | _ => false)

/-- Modelled from the spec: `canSave()` is "true iff the record is dirty or
new, and all required-field constraints (if any declared) are satisfied"
(spec §4.1); it is a total boolean function, so it never throws. -/
def canSave (m : Model) : Bool :=
  (isDirty m || isNew m) && constraintsOk m

/-- Modelled from the spec: `revert()` "discards working changes, resets
`attributes` to `original`" (spec §4.1). -/
def revert (m : Model) : Model := { m with attributes := m.original }

/-- The two error kinds of spec §7: `CommunicationError` (transport/status
failure) and `ValidationError` (field-keyed backend messages). -/
inductive SaveError where
  | communicationError : SaveError
  | validationError : SaveError
deriving DecidableEq, Repr

/-- The backend's answer to a save request: success (with the identifier the
backend assigned, used only when the record was new) or one of the two
failures. -/
inductive SaveOutcome where
  | ok : Nat → SaveOutcome
  | fail : SaveError → SaveOutcome
deriving DecidableEq, Repr

/-- Modelled from the spec: `save()` (spec §4.1).  "On success, replaces
`original` with the current `attributes` and sets `id` if newly assigned by
the backend.  On failure, leaves `attributes` unchanged and surfaces the
error to the caller; model remains dirty."  The asynchronous request is
embedded by passing the backend's outcome; the returned pair is the model
after the call and the propagated error, if any. -/
def save (m : Model) (o : SaveOutcome) : Model × Option SaveError :=
  match o with
  | SaveOutcome.ok newId =>
      ({ m with original := m.attributes, id := some (m.id.getD newId) }, none)
  | SaveOutcome.fail e => (m, some e)

/-- The backend's answer to a delete request. -/
inductive DeleteOutcome where
  | ok : DeleteOutcome
  | fail : SaveError → DeleteOutcome
deriving DecidableEq, Repr

/-- Modelled from the spec: `delete()` (spec §4.1).  On success the model is
"considered removed" by its callers; on failure the error is surfaced and
"the record is unchanged".  Either way the model state itself is untouched. -/
def deleteRecord (m : Model) (o : DeleteOutcome) : Model × Option SaveError :=
  match o with
  | DeleteOutcome.ok => (m, none)
  | DeleteOutcome.fail e => (m, some e)

/-- Modelled from the spec: the models reachable from the public operations —
construction (new or loaded), `set`, `save`, `revert`, `delete` — for a fixed
declared schema and constraint list (spec §3 lifecycle). -/
inductive Reachable (schema : List (String × Value)) (required : List String) :
    Model → Prop where
  | new : Reachable schema required (newModel schema required)
  | load (i : Nat) (data : List (String × Value)) :
      Reachable schema required (loadModel schema required i data)
  | set {m : Model} (k : String) (v : Value) :
      Reachable schema required m → Reachable schema required (setAttr m k v)
  | save {m : Model} (o : SaveOutcome) :
      Reachable schema required m → Reachable schema required (save m o).1
  | revert {m : Model} :
      Reachable schema required m → Reachable schema required (revert m)
  | del {m : Model} (o : DeleteOutcome) :
      Reachable schema required m →
      Reachable schema required (deleteRecord m o).1

/-- The `Quiz` schema, from `Quiz.model` in `src/admin/src/Models/Quiz.ts`:
attributes `name`, `description` and `deleted_at` with defaults `""`, `""`
and `null`. -/
def quizSchema : List (String × Value) :=
  [("name", Value.str ""), ("description", Value.str ""),
   ("deleted_at", Value.vnull)]

/-- `Quiz.model.root` in `src/admin/src/Models/Quiz.ts`. -/
def quizRoot : String := "/quiz/quiz"

/-- `Quiz.model.id` in `src/admin/src/Models/Quiz.ts`. -/
def quizIdField : String := "id"

/-- `Quiz.deleteConfirmMessage` from `src/admin/src/Models/Quiz.ts`: the
override returns a fixed string and ignores the instance state. -/
def quizDeleteConfirmMessage (_q : Model) : String :=
  "Are you sure you want to delete this quiz?"

/-- Modelled from the spec: the listener registry behind
`subscribe(listener) -> unsubscribe` (spec §4.1).  Listeners are identified
by the counter value at registration time; `listeners` holds the currently
registered identifiers. -/
structure Notifier where
  nextId : Nat
  listeners : List Nat
deriving DecidableEq, Repr

/-- Modelled from the spec: `subscribe` registers a fresh listener and
returns its identifier (standing for the deregistration handle). -/
def subscribe (n : Notifier) : Notifier × Nat :=
  ({ nextId := n.nextId + 1, listeners := n.listeners ++ [n.nextId] }, n.nextId)

/-- Modelled from the spec: the deregistration function returned by
`subscribe`; removing an identifier that is no longer present is a no-op, so
calling it repeatedly is safe. -/
def unsubscribe (n : Notifier) (i : Nat) : Notifier :=
  { n with listeners := n.listeners.filter (fun j => j ≠ i) }

/-- Modelled from the spec: notifying fires every currently registered
listener once, in registration order; the result is the list of invoked
listener identifiers. -/
def notifyAll (n : Notifier) : List Nat := n.listeners

/-- Well-formedness of the registry: no listener is registered twice and
every registered identifier was drawn from the counter. -/
def Notifier.wf (n : Notifier) : Prop :=
  n.listeners.Nodup ∧ ∀ i ∈ n.listeners, i < n.nextId

/-- A model together with its listener registry. -/
structure Session where
  model : Model
  notifier : Notifier
deriving DecidableEq, Repr

/-- The public operations a caller can perform on a session. -/
inductive Op where
  | set : String → Value → Op
  | doSave : SaveOutcome → Op
  | doRevert : Op
  | doSubscribe : Op
  | doUnsubscribe : Nat → Op
deriving DecidableEq, Repr

/-- Modelled from the spec: one operation on a session, returning the new
session and the listener identifiers invoked by it.  Spec §4.1: listeners
are "called after every mutating operation (`set`, successful `save`,
`revert`)"; a failed save mutates nothing and notifies nobody. -/
def stepOp (s : Session) : Op → Session × List Nat
  | Op.set k v => ({ s with model := setAttr s.model k v }, notifyAll s.notifier)
  | Op.doSave o =>
      match save s.model o with
      | (m', none) => ({ s with model := m' }, notifyAll s.notifier)
      | (m', some _) => ({ s with model := m' }, [])
  | Op.doRevert => ({ s with model := revert s.model }, notifyAll s.notifier)
  | Op.doSubscribe => ({ s with notifier := (subscribe s.notifier).1 }, [])
  | Op.doUnsubscribe i => ({ s with notifier := unsubscribe s.notifier i }, [])

/-- Running a sequence of operations, concatenating the invocation logs. -/
def runOps (s : Session) : List Op → Session × List Nat
  | [] => (s, [])
  | op :: ops =>
      let r := stepOp s op
      let r' := runOps r.1 ops
      (r'.1, r.2 ++ r'.2)

/-- The per-form states of spec §4.2 (the transient `Saved` state of the
prose collapses into the `Saving --success--> Clean` transition of the
transition list). -/
inductive FormState where
  | Clean : FormState
  | Dirty : FormState
  | Saving : FormState
  | Err : FormState
deriving DecidableEq, Repr, Fintype

/-- The events driving the spec §4.2 state machine. -/
inductive FormEvent where
  | edit : FormEvent
  | saveCall : FormEvent
  | saveSuccess : FormEvent
  | saveFailure : FormEvent
  | revertCall : FormEvent
deriving DecidableEq, Repr, Fintype

/-- Modelled from the spec: the transition list of spec §4.2 —
`Clean --edit--> Dirty`; `Dirty --save()--> Saving`;
`Saving --success--> Clean`; `Saving --failure--> Error`;
`Error --edit or retry--> Dirty`/`Saving`; any state `--revert()--> Clean`.
`none` means the event is not available in that state (in particular the
save action is disabled while a save is in flight). -/
def stepForm : FormState → FormEvent → Option FormState
  | _, FormEvent.revertCall => some FormState.Clean
  | FormState.Clean, FormEvent.edit => some FormState.Dirty
  | FormState.Dirty, FormEvent.saveCall => some FormState.Saving
  | FormState.Saving, FormEvent.saveSuccess => some FormState.Clean
  | FormState.Saving, FormEvent.saveFailure => some FormState.Err
  | FormState.Err, FormEvent.edit => some FormState.Dirty
  | FormState.Err, FormEvent.saveCall => some FormState.Saving
  | _, _ => none

/-- The component state of `TemplateForm` (bundled in `src/api/run.sh`):
`this.state = { saveDisabled: true }`. -/
structure TemplateFormState where
  saveDisabled : Bool
deriving DecidableEq, Repr

/-- `TemplateForm`'s constructor: `this.state = { saveDisabled: true }`. -/
def templateFormConstructor : TemplateFormState := { saveDisabled := true }

/-- The listener `TemplateForm.componentDidMount` registers on its model:
`() => this.setState({saveDisabled: !template.canSave()})`. -/
def templateFormListener (template : Model) : TemplateFormState :=
  { saveDisabled := ! canSave template }

/-- `TemplateForm.render` passes `disabled={saveDisabled}` to the save
button. -/
def saveButtonDisabled (st : TemplateFormState) : Bool := st.saveDisabled

/-- A finite sequence of `set` calls applied in order. -/
def setMany (m : Model) (edits : List (String × Value)) : Model :=
  edits.foldl (fun acc kv => setAttr acc kv.1 kv.2) m

/-- A `Quiz` record fetched with `id = 7` whose `name` was then edited: its
working `name` is `"Quiz B"` while the saved snapshot still has `""`.  The
record is dirty and (with no required fields declared) `canSave` holds. -/
def dirtyQuiz : Model :=
  { schema := quizSchema, id := some 7,
    attributes := [("name", Value.str "Quiz B"), ("description", Value.str ""),
                   ("deleted_at", Value.vnull)],
    original := quizSchema, required := [] }

/-- A fresh model over a two-attribute schema that declares `name` as a
required field; `name` still holds its empty default. -/
def c3Model : Model :=
  newModel [("name", Value.str ""), ("description", Value.str "")] ["name"]

/-- A listener identifier that has been deregistered: it is absent from the
registry and can never be handed out again, because the counter has moved
past it. -/
def Gone (n : Notifier) (i : Nat) : Prop :=
  i ∉ n.listeners ∧ i < n.nextId

/-- A session over a fresh `Quiz` model with one registered listener
(identifier `0`), as `TemplateForm.componentDidMount` produces. -/
def demoSession : Session :=
  { model := newModel quizSchema [],
    notifier := { nextId := 1, listeners := [0] } }

/-!  Theorems.  -/

/-- Updating the value stored at a key never changes the key list. -/
theorem map_fst_update (l : List (String × Value)) (k : String) (v : Value) :
    (l.map fun kv => if kv.1 = k then (kv.1, v) else kv).map Prod.fst
      = l.map Prod.fst := by
  induction l with
  | nil => rfl
  | cons hd tl ih =>
      by_cases h : hd.1 = k <;> simp [h, ih]

/-- `setAttr` never changes the key list of `attributes`. -/
theorem setAttr_keys (m : Model) (k : String) (v : Value) :
    (setAttr m k v).attributes.map Prod.fst = m.attributes.map Prod.fst := by
  rw [setAttr]
  split
  · exact map_fst_update m.attributes k v
  · rfl

/-- `setAttr` only touches `attributes`. -/
theorem setAttr_original (m : Model) (k : String) (v : Value) :
    (setAttr m k v).original = m.original := by
  rw [setAttr]
  split <;> rfl

/-- `setAttr` preserves the declared schema. -/
theorem setAttr_schema (m : Model) (k : String) (v : Value) :
    (setAttr m k v).schema = m.schema := by
  rw [setAttr]
  split <;> rfl

/-- Hydration produces exactly the schema's key list. -/
theorem hydrate_keys (schema data : List (String × Value)) :
    (hydrate schema data).map Prod.fst = schema.map Prod.fst := by
  simp [hydrate, List.map_map]

/-- After updating key `k`, looking `k` up yields the new value, provided
`k` is present. -/
theorem lookupV_update_of_mem (l : List (String × Value)) (k : String)
    (v : Value) (hk : k ∈ l.map Prod.fst) :
    lookupV (l.map fun kv => if kv.1 = k then (kv.1, v) else kv) k
      = some v := by
  induction l with
  | nil => simp at hk
  | cons hd tl ih =>
      by_cases h : hd.1 = k
      · simp [lookupV, h]
      · simp only [List.map_cons, List.mem_cons] at hk
        have hk' : k ∈ tl.map Prod.fst :=
          hk.resolve_left (fun e => h e.symm)
        simp [lookupV, h, ih hk']

/-- Two attribute maps over the same duplicate-free key list that agree on
every lookup are equal. -/
theorem assoc_eq_of_lookupV (as : List (String × Value)) (ks : List String) :
    ∀ (os : List (String × Value)), as.map Prod.fst = ks →
      os.map Prod.fst = ks → ks.Nodup →
      (∀ k ∈ ks, lookupV as k = lookupV os k) → as = os := by
  induction as generalizing ks with
  | nil =>
      intro os hA hO _ _
      cases ks with
      | nil =>
          cases os with
          | nil => rfl
          | cons o os' => simp at hO
      | cons k ks' => simp at hA
  | cons a as' ih =>
      intro os hA hO hnd h
      cases ks with
      | nil => simp at hA
      | cons k ks' =>
          cases os with
          | nil => simp at hO
          | cons o os' =>
              simp only [List.map_cons, List.cons.injEq] at hA hO
              obtain ⟨ha1, ha2⟩ := hA
              obtain ⟨ho1, ho2⟩ := hO
              have hnd' := List.nodup_cons.mp hnd
              have hk := h k (List.mem_cons_self k ks')
              rw [lookupV, lookupV, if_pos ha1, if_pos ho1] at hk
              have hval : a.2 = o.2 := Option.some.inj hk
              have htl : as' = os' := by
                refine ih ks' os' ha2 ho2 hnd'.2 (fun k' hk' => ?_)
                have hne : k' ≠ k := fun e => hnd'.1 (e ▸ hk')
                have := h k' (List.mem_cons_of_mem k hk')
                rwa [lookupV, lookupV,
                  if_neg (fun e => hne ((ha1.symm.trans e).symm)),
                  if_neg (fun e => hne ((ho1.symm.trans e).symm))] at this
              have hhd : a = o := Prod.ext (ha1.trans ho1.symm) hval
              rw [hhd, htl]

/-- Dirtiness is equivalent to some schema key whose working value differs
from the snapshot, whenever both maps range over the schema's
duplicate-free keys. -/
theorem isDirty_iff_exists (m : Model)
    (hA : m.attributes.map Prod.fst = m.schema.map Prod.fst)
    (hO : m.original.map Prod.fst = m.schema.map Prod.fst)
    (hnd : (m.schema.map Prod.fst).Nodup) :
    isDirty m = true ↔
      ∃ k ∈ m.schema.map Prod.fst,
        lookupV m.attributes k ≠ lookupV m.original k := by
  rw [isDirty, decide_eq_true_eq]
  constructor
  · intro hne
    by_contra hno
    push_neg at hno
    exact hne (assoc_eq_of_lookupV m.attributes (m.schema.map Prod.fst)
      m.original hA hO hnd hno)
  · rintro ⟨k, _, hkne⟩ he
    exact hkne (by rw [he])

/-- C1: if `save()` fails with a `CommunicationError` or `ValidationError`,
the model (in particular `attributes` and its dirtiness) is exactly what it
was immediately before the call, and the error is returned to the caller
rather than swallowed. -/
theorem C1_failed_save_preserves_state (m : Model) (e : SaveError) :
    (save m (SaveOutcome.fail e)).1 = m ∧
    (save m (SaveOutcome.fail e)).1.attributes = m.attributes ∧
    isDirty (save m (SaveOutcome.fail e)).1 = isDirty m ∧
    (save m (SaveOutcome.fail e)).2 = some e :=
  ⟨rfl, rfl, rfl, rfl⟩

/-- C2: after `save()` succeeds, `original` equals the attributes at the
moment of the call (the embedding makes the request atomic, which is the
claim's no-concurrent-edit assumption), no error is surfaced, and
`canSave()` is false afterwards. -/
theorem C2_successful_save_syncs_original (m : Model) (newId : Nat) :
    (save m (SaveOutcome.ok newId)).1.original = m.attributes ∧
    (save m (SaveOutcome.ok newId)).2 = none ∧
    canSave (save m (SaveOutcome.ok newId)).1 = false := by
  refine ⟨rfl, rfl, ?_⟩
  simp [canSave, save, isDirty, isNew]

/-- C8 counterexample: the spec's transition list also lets a failed save be
retried, `Error --retry--> Saving`, so `Saving` is not entered only from
`Dirty`: the save event fires from `Err` and lands in `Saving`. -/
theorem C8_counterexample :
    stepForm FormState.Err FormEvent.saveCall = some FormState.Saving ∧
    FormState.Err ≠ FormState.Dirty := by decide

/-- C8 (amended): while a save is in flight the save event is unavailable
(so no two concurrent save submissions exist); `Saving` is entered only by a
save event and only from `Dirty` or from `Err` (retry); and `Saving` exits
only to `Clean` on success, to `Err` on failure, or to `Clean` on
`revert()`. -/
theorem C8_saving_discipline :
    stepForm FormState.Saving FormEvent.saveCall = none ∧
    (∀ (s : FormState) (e : FormEvent), stepForm s e = some FormState.Saving →
       e = FormEvent.saveCall ∧ (s = FormState.Dirty ∨ s = FormState.Err)) ∧
    (∀ (e : FormEvent) (s' : FormState), stepForm FormState.Saving e = some s' →
       (e = FormEvent.saveSuccess ∧ s' = FormState.Clean) ∨
       (e = FormEvent.saveFailure ∧ s' = FormState.Err) ∨
       (e = FormEvent.revertCall ∧ s' = FormState.Clean)) := by
  decide

/-- C8 witness: the amended theorem applied to the concrete transitions
`Dirty --save--> Saving` and `Saving --success--> Clean`. -/
theorem C8_saving_discipline_witness :
    (FormEvent.saveCall = FormEvent.saveCall ∧
      (FormState.Dirty = FormState.Dirty ∨ FormState.Dirty = FormState.Err)) ∧
    ((FormEvent.saveSuccess = FormEvent.saveSuccess ∧
        FormState.Clean = FormState.Clean) ∨
      (FormEvent.saveSuccess = FormEvent.saveFailure ∧
        FormState.Clean = FormState.Err) ∨
      (FormEvent.saveSuccess = FormEvent.revertCall ∧
        FormState.Clean = FormState.Clean)) :=
  ⟨C8_saving_discipline.2.1 FormState.Dirty FormEvent.saveCall (by decide),
   C8_saving_discipline.2.2 FormEvent.saveSuccess FormState.Clean (by decide)⟩

/-- C9: `Quiz.deleteConfirmMessage()` returns exactly
`"Are you sure you want to delete this quiz?"` for every instance,
whatever its state. -/
theorem C9_quiz_delete_confirm_message (q : Model) :
    quizDeleteConfirmMessage q = "Are you sure you want to delete this quiz?" :=
  rfl

/-- C10: `TemplateForm`'s constructor sets `saveDisabled` to `true`, so the
save button renders disabled before the first change notification even when
`canSave()` on the bound model is already true; the first notification then
enables it. -/
theorem C10_save_initially_disabled (template : Model)
    (h : canSave template = true) :
    saveButtonDisabled templateFormConstructor = true ∧
    saveButtonDisabled (templateFormListener template) = false := by
  refine ⟨rfl, ?_⟩
  simp [saveButtonDisabled, templateFormListener, h]

/-- C10 witness: a dirty `Quiz` record already satisfies `canSave`, yet the
freshly constructed form still disables save. -/
theorem C10_save_initially_disabled_witness :
    saveButtonDisabled templateFormConstructor = true ∧
    saveButtonDisabled (templateFormListener dirtyQuiz) = false :=
  C10_save_initially_disabled dirtyQuiz (by decide)

/-- C3 counterexample: with a declared required field that is still empty,
a `set` that makes another attribute differ from its snapshot does not make
`canSave()` true — the failing constraint keeps save disabled, contradicting
the unconditional claim. -/
theorem C3_counterexample :
    (c3Model.schema.map Prod.fst).contains "description" = true ∧
    lookupV (setAttr c3Model "description" (Value.str "x")).attributes
        "description" = some (Value.str "x") ∧
    lookupV c3Model.original "description" ≠ some (Value.str "x") ∧
    canSave (setAttr c3Model "description" (Value.str "x")) = false := by
  decide

/-- C3 (amended): for every schema, declared attribute `k` and value `v`,
`set(k, v)` followed by a read of `attributes[k]` yields exactly `v`; and
`canSave()` is true afterwards whenever `v` differs from `original[k]`,
provided the declared required-field constraints hold after the set — which
is always the case when none are declared, as in `Quiz`. -/
theorem C3_set_then_read (m : Model) (k : String) (v : Value)
    (hk : k ∈ m.schema.map Prod.fst)
    (hkeys : m.attributes.map Prod.fst = m.schema.map Prod.fst) :
    lookupV (setAttr m k v).attributes k = some v ∧
    (constraintsOk (setAttr m k v) = true →
      lookupV m.original k ≠ some v →
      canSave (setAttr m k v) = true) := by
  have hc : (m.schema.map Prod.fst).contains k = true := by simpa using hk
  have hread : lookupV (setAttr m k v).attributes k = some v := by
    rw [setAttr, if_pos hc]
    exact lookupV_update_of_mem m.attributes k v (by rw [hkeys]; exact hk)
  refine ⟨hread, fun hco hne => ?_⟩
  have hdirty : isDirty (setAttr m k v) = true := by
    rw [isDirty, decide_eq_true_eq]
    intro heq
    apply hne
    rw [← setAttr_original m k v, ← heq]
    exact hread
  rw [canSave, hdirty, hco, Bool.true_or, Bool.true_and]

/-- C3 witness: the amended theorem at the dirty `Quiz` record, setting
`description` to `"x"`. -/
theorem C3_set_then_read_witness :
    lookupV (setAttr dirtyQuiz "description" (Value.str "x")).attributes
        "description" = some (Value.str "x") ∧
    canSave (setAttr dirtyQuiz "description" (Value.str "x")) = true :=
  ⟨(C3_set_then_read dirtyQuiz "description" (Value.str "x")
      (by decide) (by decide)).1,
   (C3_set_then_read dirtyQuiz "description" (Value.str "x")
      (by decide) (by decide)).2 (by decide) (by decide)⟩

/-- `revert` after a sequence of `set` calls resets `attributes` to the
snapshot and leaves everything else as it started. -/
theorem revert_setMany (m : Model) (edits : List (String × Value)) :
    revert (setMany m edits) = { m with attributes := m.original } := by
  induction edits generalizing m with
  | nil => rfl
  | cons e es ih =>
      show revert (setMany (setAttr m e.1 e.2) es) = _
      rw [ih, setAttr]
      split <;> rfl

/-- C4 counterexample: a record that was already dirty before the edit
sequence.  `canSave()` is true before the first `set`, but `revert()`
discards the pre-sequence edit too, so `canSave()` comes back false, not to
its pre-sequence value. -/
theorem C4_counterexample :
    canSave dirtyQuiz = true ∧
    (revert (setMany dirtyQuiz [("description", Value.str "d")])).attributes
        = (setMany dirtyQuiz [("description", Value.str "d")]).original ∧
    canSave (revert (setMany dirtyQuiz [("description", Value.str "d")]))
        = false := by
  decide

/-- C4 (amended): after any finite sequence of `set` calls, `revert()`
always makes `attributes` equal to `original`; and when the model was clean
(`attributes = original`) before the first `set` of the sequence, the
reverted model is the starting model itself, so `canSave()` returns its
pre-edit value. -/
theorem C4_revert_restores (m : Model) (edits : List (String × Value)) :
    (revert (setMany m edits)).attributes = (setMany m edits).original ∧
    (m.attributes = m.original →
      revert (setMany m edits) = m ∧
      canSave (revert (setMany m edits)) = canSave m) := by
  refine ⟨rfl, fun hclean => ?_⟩
  have hm : revert (setMany m edits) = m := by
    obtain ⟨s, i, a, o, r⟩ := m
    rw [revert_setMany, Model.mk.injEq]
    exact ⟨rfl, rfl, hclean.symm, rfl, rfl⟩
  exact ⟨hm, by rw [hm]⟩

/-- C4 witness: the amended theorem at a fresh (clean) `Quiz` model edited
once. -/
theorem C4_revert_restores_witness :
    (revert (setMany (newModel quizSchema []) [("name", Value.str "A")])).attributes
        = (setMany (newModel quizSchema []) [("name", Value.str "A")]).original ∧
    (revert (setMany (newModel quizSchema []) [("name", Value.str "A")])
        = newModel quizSchema [] ∧
      canSave (revert (setMany (newModel quizSchema []) [("name", Value.str "A")]))
        = canSave (newModel quizSchema [])) :=
  ⟨(C4_revert_restores (newModel quizSchema []) [("name", Value.str "A")]).1,
   (C4_revert_restores (newModel quizSchema []) [("name", Value.str "A")]).2 rfl⟩

/-- C5: every model reachable through the public operations keeps the
declared schema, and the key lists of both `attributes` and `original` are
exactly the schema's key list; moreover `set` only accepts attribute names
present in the schema — with any other name it leaves the model untouched. -/
theorem C5_schema_key_invariant :
    (∀ (schema : List (String × Value)) (required : List String) (m : Model),
        Reachable schema required m →
        m.schema = schema ∧
        m.attributes.map Prod.fst = schema.map Prod.fst ∧
        m.original.map Prod.fst = schema.map Prod.fst) ∧
    (∀ (m : Model) (k : String) (v : Value),
        k ∉ m.schema.map Prod.fst → setAttr m k v = m) := by
  constructor
  · intro schema required m h
    induction h with
    | new => exact ⟨rfl, rfl, rfl⟩
    | load i data => exact ⟨rfl, hydrate_keys schema data, hydrate_keys schema data⟩
    | set k v _ ih =>
        exact ⟨(setAttr_schema _ k v).trans ih.1,
               (setAttr_keys _ k v).trans ih.2.1,
               by rw [setAttr_original]; exact ih.2.2⟩
    | save o _ ih =>
        cases o with
        | ok newId => exact ⟨ih.1, ih.2.1, ih.2.1⟩
        | fail e => exact ih
    | revert _ ih => exact ⟨ih.1, ih.2.2, ih.2.2⟩
    | del o _ ih => cases o <;> exact ih
  · intro m k v hk
    rw [setAttr, if_neg (by simpa using hk)]

/-- C5 witness: the invariant at a fresh `Quiz` model after one `set`, and
the no-op behaviour of `set` on the undeclared name `"title"`. -/
theorem C5_schema_key_invariant_witness :
    ((setAttr (newModel quizSchema []) "name" (Value.str "A")).schema = quizSchema ∧
     (setAttr (newModel quizSchema []) "name" (Value.str "A")).attributes.map
         Prod.fst = quizSchema.map Prod.fst ∧
     (setAttr (newModel quizSchema []) "name" (Value.str "A")).original.map
         Prod.fst = quizSchema.map Prod.fst) ∧
    setAttr (newModel quizSchema []) "title" (Value.str "x")
      = newModel quizSchema [] :=
  ⟨C5_schema_key_invariant.1 quizSchema [] _
      (Reachable.set "name" (Value.str "A") Reachable.new),
   C5_schema_key_invariant.2 (newModel quizSchema []) "title" (Value.str "x")
      (by decide)⟩

/-- C6: `canSave()` is true exactly when the record is dirty (some declared
attribute's working value differs from the snapshot) or new (`id` unset),
and every declared required-field constraint is satisfied.  `canSave` is a
total boolean function of the model, so failing constraints can never make
it throw — they only yield `false`. -/
theorem C6_canSave_iff (m : Model)
    (hA : m.attributes.map Prod.fst = m.schema.map Prod.fst)
    (hO : m.original.map Prod.fst = m.schema.map Prod.fst)
    (hnd : (m.schema.map Prod.fst).Nodup) :
    canSave m = true ↔
      ((∃ k ∈ m.schema.map Prod.fst,
          lookupV m.attributes k ≠ lookupV m.original k) ∨ m.id = none) ∧
        constraintsOk m = true := by
  rw [canSave, Bool.and_eq_true, Bool.or_eq_true,
    isDirty_iff_exists m hA hO hnd, isNew, Option.isNone_iff_eq_none]

/-- C6 witness: the characterization at the dirty `Quiz` record. -/
theorem C6_canSave_iff_witness :
    canSave dirtyQuiz = true ↔
      ((∃ k ∈ dirtyQuiz.schema.map Prod.fst,
          lookupV dirtyQuiz.attributes k ≠ lookupV dirtyQuiz.original k) ∨
        dirtyQuiz.id = none) ∧
      constraintsOk dirtyQuiz = true :=
  C6_canSave_iff dirtyQuiz (by decide) (by decide) (by decide)

/-- A deregistered identifier stays deregistered across any single
operation, and that operation never invokes it. -/
theorem stepOp_gone (s : Session) (i : Nat) (op : Op)
    (h : Gone s.notifier i) :
    Gone (stepOp s op).1.notifier i ∧ (stepOp s op).2.count i = 0 := by
  obtain ⟨hmem, hlt⟩ := h
  cases op with
  | set k v => exact ⟨⟨hmem, hlt⟩, List.count_eq_zero.mpr hmem⟩
  | doSave o =>
      cases o with
      | ok newId => exact ⟨⟨hmem, hlt⟩, List.count_eq_zero.mpr hmem⟩
      | fail e => exact ⟨⟨hmem, hlt⟩, rfl⟩
  | doRevert => exact ⟨⟨hmem, hlt⟩, List.count_eq_zero.mpr hmem⟩
  | doSubscribe =>
      refine ⟨⟨?_, Nat.lt_succ_of_lt hlt⟩, rfl⟩
      intro hmem'
      rcases List.mem_append.mp hmem' with h1 | h2
      · exact hmem h1
      · have hi : i = s.notifier.nextId := by simpa using h2
        exact absurd hlt (by rw [hi]; exact lt_irrefl _)
  | doUnsubscribe j =>
      refine ⟨⟨?_, hlt⟩, rfl⟩
      intro hmem'
      exact hmem (List.mem_of_mem_filter hmem')

/-- A deregistered identifier is never invoked over any operation
sequence. -/
theorem runOps_gone (i : Nat) (ops : List Op) (s : Session)
    (h : Gone s.notifier i) : (runOps s ops).2.count i = 0 := by
  induction ops generalizing s with
  | nil => rfl
  | cons op ops ih =>
      have h1 := stepOp_gone s i op h
      simp [runOps, List.count_append, h1.2, ih _ h1.1]

/-- C7: each registered listener is invoked exactly once per `set` call,
exactly once per successful save, exactly once per `revert`, and never by a
failed save; once deregistered, the listener is never invoked again over any
subsequent operation sequence (its identifier is below the registration
counter, so it cannot be handed out anew); and deregistering an identifier
twice is the same as deregistering it once, so the deregistration function
is idempotent; finally, `subscribe` always registers its returned identifier
below the counter. -/
theorem C7_subscription_contract :
    (∀ (s : Session) (i : Nat), Notifier.wf s.notifier →
        i ∈ s.notifier.listeners →
        (∀ (k : String) (v : Value),
            (stepOp s (Op.set k v)).2.count i = 1) ∧
        (∀ newId : Nat,
            (stepOp s (Op.doSave (SaveOutcome.ok newId))).2.count i = 1) ∧
        (∀ e : SaveError,
            (stepOp s (Op.doSave (SaveOutcome.fail e))).2.count i = 0) ∧
        (stepOp s Op.doRevert).2.count i = 1) ∧
    (∀ (s : Session) (i : Nat) (ops : List Op), i < s.notifier.nextId →
        (runOps { s with notifier := unsubscribe s.notifier i } ops).2.count i
          = 0) ∧
    (∀ (n : Notifier) (i : Nat),
        unsubscribe (unsubscribe n i) i = unsubscribe n i) ∧
    (∀ n : Notifier, (subscribe n).2 ∈ (subscribe n).1.listeners ∧
        (subscribe n).2 < (subscribe n).1.nextId) := by
  refine ⟨?_, ?_, ?_, ?_⟩
  · intro s i hwf hi
    exact ⟨fun k v => List.count_eq_one_of_mem hwf.1 hi,
           fun newId => List.count_eq_one_of_mem hwf.1 hi,
           fun e => rfl,
           List.count_eq_one_of_mem hwf.1 hi⟩
  · intro s i ops hlt
    refine runOps_gone i ops _ ⟨?_, hlt⟩
    intro hmem
    have := (List.mem_filter.mp hmem).2
    simp at this
  · intro n i
    have key : (n.listeners.filter (fun j => j ≠ i)).filter (fun j => j ≠ i)
        = n.listeners.filter (fun j => j ≠ i) :=
      List.filter_eq_self.mpr (fun a ha => (List.mem_filter.mp ha).2)
    simp [unsubscribe, key]
  · intro n
    constructor
    · simp [subscribe]
    · simp [subscribe]

/-- C7 witness: the contract at a session with one registered listener
(identifier 0): one invocation per `set`, successful save and `revert`, none
for a failed save, and silence forever after deregistration. -/
theorem C7_subscription_contract_witness :
    (stepOp demoSession (Op.set "name" (Value.str "A"))).2.count 0 = 1 ∧
    (stepOp demoSession (Op.doSave (SaveOutcome.ok 7))).2.count 0 = 1 ∧
    (stepOp demoSession
        (Op.doSave (SaveOutcome.fail SaveError.communicationError))).2.count 0
      = 0 ∧
    (stepOp demoSession Op.doRevert).2.count 0 = 1 ∧
    (runOps { demoSession with notifier := unsubscribe demoSession.notifier 0 }
        [Op.set "name" (Value.str "A"), Op.doSubscribe,
         Op.doRevert]).2.count 0 = 0 ∧
    unsubscribe (unsubscribe demoSession.notifier 0) 0
      = unsubscribe demoSession.notifier 0 := by
  have hwf : Notifier.wf demoSession.notifier := ⟨by decide, by decide⟩
  have h1 := C7_subscription_contract.1 demoSession 0 hwf (by decide)
  exact ⟨h1.1 "name" (Value.str "A"), h1.2.1 7,
         h1.2.2.1 SaveError.communicationError, h1.2.2.2,
         C7_subscription_contract.2.1 demoSession 0
           [Op.set "name" (Value.str "A"), Op.doSubscribe, Op.doRevert]
           (by decide),
         C7_subscription_contract.2.2.1 demoSession.notifier 0⟩
